import Mathlib

/-!
Verification of the greeting library in src/rust-v1/src/lib.rs.

The library exports a single function

  pub fn hello() -> &'static str {
      "Hello from @ign-var:PROJECT_NAME@!"
  }

together with a unit test asserting `hello()` equals the literal
`"Hello from @ign-var:PROJECT_NAME@!"`.  We model the function as a
total Lean function from `Unit` (one argument per invocation), give an
error-aware view and a state-passing view of the same body, and prove
the specification's properties about it.
-/

namespace IgnTemplate

/-- The string literal that is the entire body of `hello` in
src/rust-v1/src/lib.rs (lines 13-15).  The template token
`@ign-var:PROJECT_NAME@` appears verbatim in the source. -/
def helloStr : String := "Hello from @ign-var:PROJECT_NAME@!"

/-- Shallow embedding of `pub fn hello() -> &'static str`.  Each
invocation is modelled by a `Unit` argument; the body is a single
`return` of the constant literal, so the embedding ignores its argument
and returns `helloStr`. -/
def hello : Unit → String := fun _ => helloStr

/-- Error-aware view of `hello`.  The Rust body has no error branch and
no panicking operation, so the error type of this embedding is `Empty`:
an error result is unrepresentable. -/
def helloE : Unit → Except Empty String := fun u => Except.ok (hello u)

/-- State-passing view of `hello`.  The body reads and writes no program
state, so the embedding threads an arbitrary ambient state `σ` through
unchanged while producing the same value as `hello`. -/
def helloWithState {S : Type} (σ : S) : S × String := (σ, hello ())

/-- Execution of a schedule of concurrent invocations of `hello` against
a shared ambient state.  Each entry of the schedule is the id of the
thread that performs the next call; every event applies the
state-passing view of `hello` to the current shared state and records
the returned string. -/
def runSchedule {S : Type} (σ : S) : List Nat → S × List String
  | [] => (σ, [])
  | _ :: rest =>
      let step := helloWithState σ
      let tail := runSchedule step.1 rest
      (tail.1, step.2 :: tail.2)

/-- `tokenAt tok s` holds when the character list `tok` occurs at the
head of the character list `s`. -/
def tokenAt : List Char → List Char → Bool
  | [], _ => true
  | _ :: _, [] => false
  | t :: ts, c :: cs => t == c && tokenAt ts cs

/-- `hasToken tok s` holds when the character list `tok` occurs as a
contiguous run somewhere inside the character list `s`. -/
def hasToken (tok : List Char) : List Char → Bool
  | [] => tokenAt tok []
  | c :: cs => tokenAt tok (c :: cs) || hasToken tok cs

/-- Substring test on strings, via their character lists. -/
def strContains (s tok : String) : Bool := hasToken tok.data s.data

/-- The raw template token for the project name, as it appears in the
source file. -/
def placeholderToken : String := "@ign-var:PROJECT_NAME@"

/-- Spec-side predicate, following the spec's words for the scenario in
section 8: the template placeholder is "resolved at build time" exactly
when the returned string no longer contains the raw template token. -/
def placeholderResolved (s : String) : Bool := !(strContains s placeholderToken)

/-- The expected literal of the unit test `test_hello` in
src/rust-v1/src/lib.rs (lines 21-24). -/
def testExpected : String := "Hello from @ign-var:PROJECT_NAME@!"

/-- Embedding of the unit test `test_hello`: the body is
`assert_eq!(hello(), "Hello from @ign-var:PROJECT_NAME@!")`, which
passes exactly when this boolean is `true`. -/
def test_hello : Bool := hello () == testExpected

/-- Claim C1 as stated is false: the string returned by `hello` still
contains the raw template token `@ign-var:PROJECT_NAME@`, so the
placeholder is not resolved/substituted in this repository. -/
theorem C1_counterexample : placeholderResolved (hello ()) = false := by decide

/-- Claim C1 (amended): every invocation of `hello` returns the literal
string "Hello from @ign-var:PROJECT_NAME@!", in which the template
placeholder for the project name is left unexpanded. -/
theorem C1_hello_literal_unexpanded (u : Unit) :
    hello u = "Hello from @ign-var:PROJECT_NAME@!" ∧
      placeholderResolved (hello u) = false := by
  cases u
  exact ⟨rfl, by decide⟩

/-- Claim C2: `hello` is deterministic; any two invocations return equal
string values, namely the single constant `helloStr`. -/
theorem C2_hello_deterministic (u v : Unit) :
    hello u = hello v ∧ hello u = helloStr := ⟨rfl, rfl⟩

/-- Claim C3: for every invocation, the string returned by `hello` is
non-empty and contains the greeting "Hello from " (in fact at its
head). -/
theorem C3_hello_nonempty_greeting (u : Unit) :
    hello u ≠ "" ∧ strContains (hello u) "Hello from " = true ∧
      tokenAt "Hello from ".data (hello u).data = true := by
  cases u
  refine ⟨?_, ?_, ?_⟩ <;> decide

/-- Claim C4: `hello` cannot fail.  The error-aware embedding always
returns `Except.ok`, and an error result is impossible (its error type
is `Empty`). -/
theorem C4_hello_no_error (u : Unit) :
    (∃ s : String, helloE u = Except.ok s) ∧
      ∀ e : Empty, helloE u ≠ Except.error e :=
  ⟨⟨helloStr, rfl⟩, fun e _ => e.elim⟩

/-- Claim C5: `hello` has no side effects.  In the state-passing view,
any ambient state is returned unchanged, and the produced value is the
same as the pure function's. -/
theorem C5_hello_no_side_effects (S : Type) (σ : S) :
    (helloWithState σ).1 = σ ∧ (helloWithState σ).2 = hello () :=
  ⟨rfl, rfl⟩

/-- Claim C6: the value returned by `hello` is one constant string whose
characters are all valid Unicode scalar values (hence it has a valid
UTF-8 encoding); in fact every character is ASCII. -/
theorem C6_hello_utf8_constant (u : Unit) :
    hello u = helloStr ∧
      (∀ c ∈ (hello u).data, c.val.isValidChar) ∧
      ∀ c ∈ (hello u).data, c.toNat < 128 := by
  cases u
  refine ⟨rfl, fun c _ => c.valid, ?_⟩
  decide

/-- Claim C7: every invocation of `hello` terminates with a result: the
embedding is a total function, returning `helloStr`. -/
theorem C7_hello_terminates (u : Unit) :
    ∃ s : String, hello u = s ∧ s = helloStr := ⟨helloStr, rfl, rfl⟩

/-- Claim C8: concurrent calls to `hello` cannot interfere: under every
schedule of invocations against a shared state, the shared state is left
unchanged and every call returns the same constant value. -/
theorem C8_hello_concurrent_safe (S : Type) (σ : S) (sched : List Nat) :
    (runSchedule σ sched).1 = σ ∧
      (runSchedule σ sched).2 = List.replicate sched.length (hello ()) := by
  induction sched with
  | nil => exact ⟨rfl, rfl⟩
  | cons t rest ih =>
      simpa [runSchedule, helloWithState, List.replicate] using ih

/-- Claim C9: every invocation of `hello` returns exactly
"Hello from @ign-var:PROJECT_NAME@!", and that string contains the
unexpanded template token `@ign-var:PROJECT_NAME@` as a contiguous
part. -/
theorem C9_hello_unexpanded_token (u : Unit) :
    hello u = "Hello from @ign-var:PROJECT_NAME@!" ∧
      ∃ a b : String, hello u = a ++ placeholderToken ++ b := by
  cases u
  exact ⟨rfl, "Hello from ", "!", by decide⟩

/-- Claim C10: the unit test `test_hello` passes: the value of `hello()`
equals the test's expected literal. -/
theorem C10_test_hello_passes : test_hello = true ∧ hello () = testExpected :=
  ⟨rfl, rfl⟩

end IgnTemplate
